import Mathlib

/-!
Shallow embedding of the litehtml C ABI bridge
(`src/litehtml-sys/csrc/litehtml_c.h` and `src/litehtml-sys/csrc/litehtml_c.cpp`).

Modelling conventions:
- C `float` fields are modelled as rationals (`ℚ`); every operation the bridge
  performs on them is a copy, an addition or a subtraction, so the model is
  exact.
- C `int` fields (including enum ordinals, which the bridge moves with
  `static_cast<int>`) are modelled as `Int`; `unsigned char` colour channels as
  `Nat`; C++ `bool` as `Bool` and its C `int` image as `Int` via `b ? 1 : 0`.
- Raw pointers that may be null are modelled as `Option` values; a C out
  parameter `T*` is modelled by passing the pointed-to value in and returning
  the value it holds after the call.
- Engine-owned objects (documents, render items, descriptors) are modelled as
  records of the fields the bridge reads from them; engine-computed quantities
  (such as `render_item::get_placement`) appear as stored attributes.
-/

set_option autoImplicit false

namespace LitehtmlC

/- ------------------------------------------------------------------------
   ABI value structs (litehtml_c.h)
   ------------------------------------------------------------------------ -/

structure lh_position_t where
  x : ℚ
  y : ℚ
  width : ℚ
  height : ℚ
  deriving DecidableEq

structure lh_size_t where
  width : ℚ
  height : ℚ
  deriving DecidableEq

structure lh_web_color_t where
  red : Nat
  green : Nat
  blue : Nat
  alpha : Nat
  is_current_color : Int
  deriving DecidableEq

structure lh_font_metrics_t where
  font_size : ℚ
  height : ℚ
  ascent : ℚ
  descent : ℚ
  x_height : ℚ
  ch_width : ℚ
  draw_spaces : Int
  sub_shift : ℚ
  super_shift : ℚ
  deriving DecidableEq

structure lh_border_radiuses_t where
  top_left_x : ℚ
  top_left_y : ℚ
  top_right_x : ℚ
  top_right_y : ℚ
  bottom_right_x : ℚ
  bottom_right_y : ℚ
  bottom_left_x : ℚ
  bottom_left_y : ℚ
  deriving DecidableEq

structure lh_border_t where
  width : ℚ
  style : Int
  color : lh_web_color_t
  deriving DecidableEq

structure lh_borders_t where
  left : lh_border_t
  top : lh_border_t
  right : lh_border_t
  bottom : lh_border_t
  radius : lh_border_radiuses_t
  deriving DecidableEq

structure lh_media_features_t where
  type : Int
  width : ℚ
  height : ℚ
  device_width : ℚ
  device_height : ℚ
  color : Int
  color_index : Int
  monochrome : Int
  resolution : ℚ
  deriving DecidableEq

structure lh_point_t where
  x : ℚ
  y : ℚ
  deriving DecidableEq

/- Zero-valued ABI structs, the image of C `{}` zero initialisation. -/

def lh_position_t.zero : lh_position_t := ⟨0, 0, 0, 0⟩

def lh_web_color_t.zero : lh_web_color_t := ⟨0, 0, 0, 0, 0⟩

def lh_border_radiuses_t.zero : lh_border_radiuses_t := ⟨0, 0, 0, 0, 0, 0, 0, 0⟩

def lh_point_t.zero : lh_point_t := ⟨0, 0⟩

/- ------------------------------------------------------------------------
   Native litehtml value types, as the bridge reads and writes them
   ------------------------------------------------------------------------ -/

structure position where
  x : ℚ
  y : ℚ
  width : ℚ
  height : ℚ
  deriving DecidableEq

structure size where
  width : ℚ
  height : ℚ
  deriving DecidableEq

structure web_color where
  red : Nat
  green : Nat
  blue : Nat
  alpha : Nat
  is_current_color : Bool
  deriving DecidableEq

structure font_metrics where
  font_size : ℚ
  height : ℚ
  ascent : ℚ
  descent : ℚ
  x_height : ℚ
  ch_width : ℚ
  draw_spaces : Bool
  sub_shift : ℚ
  super_shift : ℚ
  deriving DecidableEq

structure border_radiuses where
  top_left_x : ℚ
  top_left_y : ℚ
  top_right_x : ℚ
  top_right_y : ℚ
  bottom_right_x : ℚ
  bottom_right_y : ℚ
  bottom_left_x : ℚ
  bottom_left_y : ℚ
  deriving DecidableEq

structure border where
  width : ℚ
  style : Int
  color : web_color
  deriving DecidableEq

structure borders where
  left : border
  top : border
  right : border
  bottom : border
  radius : border_radiuses
  deriving DecidableEq

structure media_features where
  type : Int
  width : ℚ
  height : ℚ
  device_width : ℚ
  device_height : ℚ
  color : Int
  color_index : Int
  monochrome : Int
  resolution : ℚ
  deriving DecidableEq

structure pointF where
  x : ℚ
  y : ℚ
  deriving DecidableEq

/- ------------------------------------------------------------------------
   Conversion helpers (litehtml_c.cpp lines 18-174)
   ------------------------------------------------------------------------ -/

def position.to_c (p : position) : lh_position_t :=
  ⟨p.x, p.y, p.width, p.height⟩

def lh_position_t.to_cpp (p : lh_position_t) : position :=
  ⟨p.x, p.y, p.width, p.height⟩

def size.to_c (s : size) : lh_size_t :=
  ⟨s.width, s.height⟩

def lh_size_t.to_cpp (s : lh_size_t) : size :=
  ⟨s.width, s.height⟩

def web_color.to_c (c : web_color) : lh_web_color_t :=
  ⟨c.red, c.green, c.blue, c.alpha, if c.is_current_color then 1 else 0⟩

def lh_web_color_t.to_cpp (c : lh_web_color_t) : web_color :=
  ⟨c.red, c.green, c.blue, c.alpha, c.is_current_color != 0⟩

def font_metrics.to_c (m : font_metrics) : lh_font_metrics_t :=
  ⟨m.font_size, m.height, m.ascent, m.descent, m.x_height, m.ch_width,
   if m.draw_spaces then 1 else 0, m.sub_shift, m.super_shift⟩

def lh_font_metrics_t.from_c (c : lh_font_metrics_t) : font_metrics :=
  ⟨c.font_size, c.height, c.ascent, c.descent, c.x_height, c.ch_width,
   c.draw_spaces != 0, c.sub_shift, c.super_shift⟩

def border_radiuses.to_c (br : border_radiuses) : lh_border_radiuses_t :=
  ⟨br.top_left_x, br.top_left_y, br.top_right_x, br.top_right_y,
   br.bottom_right_x, br.bottom_right_y, br.bottom_left_x, br.bottom_left_y⟩

def lh_border_radiuses_t.to_cpp (br : lh_border_radiuses_t) : border_radiuses :=
  ⟨br.top_left_x, br.top_left_y, br.top_right_x, br.top_right_y,
   br.bottom_right_x, br.bottom_right_y, br.bottom_left_x, br.bottom_left_y⟩

def border.to_c (b : border) : lh_border_t :=
  ⟨b.width, b.style, b.color.to_c⟩

def borders.to_c (b : borders) : lh_borders_t :=
  ⟨b.left.to_c, b.top.to_c, b.right.to_c, b.bottom.to_c, b.radius.to_c⟩

def media_features.to_c (mf : media_features) : lh_media_features_t :=
  ⟨mf.type, mf.width, mf.height, mf.device_width, mf.device_height,
   mf.color, mf.color_index, mf.monochrome, mf.resolution⟩

def lh_media_features_t.from_c (c : lh_media_features_t) : media_features :=
  ⟨c.type, c.width, c.height, c.device_width, c.device_height,
   c.color, c.color_index, c.monochrome, c.resolution⟩

def pointF.to_c (p : pointF) : lh_point_t :=
  ⟨p.x, p.y⟩

/- ------------------------------------------------------------------------
   Claim C4
   ------------------------------------------------------------------------ -/

/-- Claim C4: for every native value instance of the marshalled value types
(position, size, web colour, border radii, media features, font metrics),
converting to the flat ABI struct and back reproduces every field exactly:
the round trip through the boundary is the identity. -/
theorem C4_marshalling_round_trip :
    (∀ p : position, p.to_c.to_cpp = p) ∧
    (∀ s : size, s.to_c.to_cpp = s) ∧
    (∀ c : web_color, c.to_c.to_cpp = c) ∧
    (∀ br : border_radiuses, br.to_c.to_cpp = br) ∧
    (∀ m : font_metrics, m.to_c.from_c = m) ∧
    (∀ mf : media_features, mf.to_c.from_c = mf) := by
  refine ⟨fun p => rfl, fun s => rfl, fun c => ?_, fun br => rfl, fun m => ?_, fun mf => rfl⟩
  · cases c with
    | mk r g b a icc => cases icc <;> rfl
  · cases m with
    | mk fs h a d xh cw ds ss sup => cases ds <;> rfl

/- ------------------------------------------------------------------------
   Opaque nested descriptors, as the accessor layer reads them
   ------------------------------------------------------------------------ -/

/-- Model of `litehtml::css_length` as read by the decoration-thickness
accessors: a predefined/value union tagged by `is_predefined()`. -/
structure css_length where
  is_predefined : Bool
  predef : Int
  val : ℚ
  deriving DecidableEq

structure font_description where
  family : String
  size : ℚ
  style : Int
  weight : Int
  decoration_line : Int
  decoration_thickness : css_length
  decoration_style : Int
  decoration_color : web_color
  emphasis_style : String
  emphasis_color : web_color
  emphasis_position : Int
  deriving DecidableEq

structure list_marker where
  image : String
  baseurl : String
  marker_type : Int
  color : web_color
  pos : position
  index : Int
  font : Nat
  deriving DecidableEq

structure background_layer where
  border_box : position
  border_radius : border_radiuses
  clip_box : position
  origin_box : position
  attachment : Int
  layer_repeat : Int
  is_root : Bool
  deriving DecidableEq

structure color_point where
  offset : ℚ
  color : web_color
  deriving DecidableEq

structure linear_gradient where
  start : pointF
  end_point : pointF
  color_points : List color_point
  color_space : Int
  hue_interpolation : Int
  deriving DecidableEq

structure radial_gradient where
  position : pointF
  radius : pointF
  color_points : List color_point
  color_space : Int
  hue_interpolation : Int
  deriving DecidableEq

structure conic_gradient where
  position : pointF
  angle : ℚ
  radius : ℚ
  color_points : List color_point
  color_space : Int
  hue_interpolation : Int
  deriving DecidableEq

/- ------------------------------------------------------------------------
   Accessor functions -- font_description (litehtml_c.cpp lines 524-613)
   ------------------------------------------------------------------------ -/

def lh_font_description_family : Option font_description → String
  | none => ""
  | some d => d.family

def lh_font_description_size : Option font_description → ℚ
  | none => 0
  | some d => d.size

def lh_font_description_style : Option font_description → Int
  | none => 0
  | some d => d.style

def lh_font_description_weight : Option font_description → Int
  | none => 0
  | some d => d.weight

def lh_font_description_decoration_line : Option font_description → Int
  | none => 0
  | some d => d.decoration_line

def lh_font_description_decoration_thickness_is_predefined :
    Option font_description → Int
  | none => 1
  | some d => if d.decoration_thickness.is_predefined then 1 else 0

def lh_font_description_decoration_thickness_predef : Option font_description → Int
  | none => 0
  | some d => if d.decoration_thickness.is_predefined then d.decoration_thickness.predef else 0

def lh_font_description_decoration_thickness_value : Option font_description → ℚ
  | none => 0
  | some d => if d.decoration_thickness.is_predefined then 0 else d.decoration_thickness.val

def lh_font_description_decoration_style : Option font_description → Int
  | none => 0
  | some d => d.decoration_style

def lh_font_description_decoration_color : Option font_description → lh_web_color_t
  | none => lh_web_color_t.zero
  | some d => d.decoration_color.to_c

def lh_font_description_emphasis_style : Option font_description → String
  | none => ""
  | some d => d.emphasis_style

def lh_font_description_emphasis_color : Option font_description → lh_web_color_t
  | none => lh_web_color_t.zero
  | some d => d.emphasis_color.to_c

def lh_font_description_emphasis_position : Option font_description → Int
  | none => 0
  | some d => d.emphasis_position

/- ------------------------------------------------------------------------
   Accessor functions -- list_marker (litehtml_c.cpp lines 619-666)
   ------------------------------------------------------------------------ -/

def lh_list_marker_image : Option list_marker → String
  | none => ""
  | some m => m.image

def lh_list_marker_baseurl : Option list_marker → String
  | none => ""
  | some m => m.baseurl

def lh_list_marker_type : Option list_marker → Int
  | none => 0
  | some m => m.marker_type

def lh_list_marker_color : Option list_marker → lh_web_color_t
  | none => lh_web_color_t.zero
  | some m => m.color.to_c

def lh_list_marker_pos : Option list_marker → lh_position_t
  | none => lh_position_t.zero
  | some m => m.pos.to_c

def lh_list_marker_index : Option list_marker → Int
  | none => 0
  | some m => m.index

def lh_list_marker_font : Option list_marker → Nat
  | none => 0
  | some m => m.font

/- ------------------------------------------------------------------------
   Accessor functions -- background_layer (litehtml_c.cpp lines 672-719)
   ------------------------------------------------------------------------ -/

def lh_background_layer_border_box : Option background_layer → lh_position_t
  | none => lh_position_t.zero
  | some l => l.border_box.to_c

def lh_background_layer_border_radius : Option background_layer → lh_border_radiuses_t
  | none => lh_border_radiuses_t.zero
  | some l => l.border_radius.to_c

def lh_background_layer_clip_box : Option background_layer → lh_position_t
  | none => lh_position_t.zero
  | some l => l.clip_box.to_c

def lh_background_layer_origin_box : Option background_layer → lh_position_t
  | none => lh_position_t.zero
  | some l => l.origin_box.to_c

def lh_background_layer_attachment : Option background_layer → Int
  | none => 0
  | some l => l.attachment

def lh_background_layer_repeat : Option background_layer → Int
  | none => 0
  | some l => l.layer_repeat

def lh_background_layer_is_root : Option background_layer → Int
  | none => 0
  | some l => if l.is_root then 1 else 0

/- ------------------------------------------------------------------------
   Accessor functions -- linear_gradient (litehtml_c.cpp lines 725-788)
   ------------------------------------------------------------------------ -/

def lh_linear_gradient_start : Option linear_gradient → lh_point_t
  | none => lh_point_t.zero
  | some g => g.start.to_c

def lh_linear_gradient_end : Option linear_gradient → lh_point_t
  | none => lh_point_t.zero
  | some g => g.end_point.to_c

def lh_linear_gradient_color_points_count : Option linear_gradient → Int
  | none => 0
  | some g => (g.color_points.length : Int)

def lh_linear_gradient_color_point_offset (g : Option linear_gradient) (idx : Int) : ℚ :=
  match g with
  | none => 0
  | some lg =>
    if idx < 0 ∨ (lg.color_points.length : Int) ≤ idx then 0
    else
      match lg.color_points[idx.toNat]? with
      | some cp => cp.offset
      | none => 0

def lh_linear_gradient_color_point_color (g : Option linear_gradient) (idx : Int) :
    lh_web_color_t :=
  match g with
  | none => lh_web_color_t.zero
  | some lg =>
    if idx < 0 ∨ (lg.color_points.length : Int) ≤ idx then lh_web_color_t.zero
    else
      match lg.color_points[idx.toNat]? with
      | some cp => cp.color.to_c
      | none => lh_web_color_t.zero

def lh_linear_gradient_color_space : Option linear_gradient → Int
  | none => 0
  | some g => g.color_space

def lh_linear_gradient_hue_interpolation : Option linear_gradient → Int
  | none => 0
  | some g => g.hue_interpolation

/- ------------------------------------------------------------------------
   Accessor functions -- radial_gradient (litehtml_c.cpp lines 794-857)
   ------------------------------------------------------------------------ -/

def lh_radial_gradient_position : Option radial_gradient → lh_point_t
  | none => lh_point_t.zero
  | some g => g.position.to_c

def lh_radial_gradient_radius : Option radial_gradient → lh_point_t
  | none => lh_point_t.zero
  | some g => g.radius.to_c

def lh_radial_gradient_color_points_count : Option radial_gradient → Int
  | none => 0
  | some g => (g.color_points.length : Int)

def lh_radial_gradient_color_point_offset (g : Option radial_gradient) (idx : Int) : ℚ :=
  match g with
  | none => 0
  | some rg =>
    if idx < 0 ∨ (rg.color_points.length : Int) ≤ idx then 0
    else
      match rg.color_points[idx.toNat]? with
      | some cp => cp.offset
      | none => 0

def lh_radial_gradient_color_point_color (g : Option radial_gradient) (idx : Int) :
    lh_web_color_t :=
  match g with
  | none => lh_web_color_t.zero
  | some rg =>
    if idx < 0 ∨ (rg.color_points.length : Int) ≤ idx then lh_web_color_t.zero
    else
      match rg.color_points[idx.toNat]? with
      | some cp => cp.color.to_c
      | none => lh_web_color_t.zero

def lh_radial_gradient_color_space : Option radial_gradient → Int
  | none => 0
  | some g => g.color_space

def lh_radial_gradient_hue_interpolation : Option radial_gradient → Int
  | none => 0
  | some g => g.hue_interpolation

/- ------------------------------------------------------------------------
   Accessor functions -- conic_gradient (litehtml_c.cpp lines 863-934)
   ------------------------------------------------------------------------ -/

def lh_conic_gradient_position : Option conic_gradient → lh_point_t
  | none => lh_point_t.zero
  | some g => g.position.to_c

def lh_conic_gradient_angle : Option conic_gradient → ℚ
  | none => 0
  | some g => g.angle

def lh_conic_gradient_radius : Option conic_gradient → ℚ
  | none => 0
  | some g => g.radius

def lh_conic_gradient_color_points_count : Option conic_gradient → Int
  | none => 0
  | some g => (g.color_points.length : Int)

def lh_conic_gradient_color_point_offset (g : Option conic_gradient) (idx : Int) : ℚ :=
  match g with
  | none => 0
  | some cg =>
    if idx < 0 ∨ (cg.color_points.length : Int) ≤ idx then 0
    else
      match cg.color_points[idx.toNat]? with
      | some cp => cp.offset
      | none => 0

def lh_conic_gradient_color_point_color (g : Option conic_gradient) (idx : Int) :
    lh_web_color_t :=
  match g with
  | none => lh_web_color_t.zero
  | some cg =>
    if idx < 0 ∨ (cg.color_points.length : Int) ≤ idx then lh_web_color_t.zero
    else
      match cg.color_points[idx.toNat]? with
      | some cp => cp.color.to_c
      | none => lh_web_color_t.zero

def lh_conic_gradient_color_space : Option conic_gradient → Int
  | none => 0
  | some g => g.color_space

def lh_conic_gradient_hue_interpolation : Option conic_gradient → Int
  | none => 0
  | some g => g.hue_interpolation

/- ------------------------------------------------------------------------
   Render items and elements (introspection layer)
   ------------------------------------------------------------------------ -/

/-- A render node as the bridge reads it: `pos()` (the locally stored
`m_pos`), the engine-computed absolute `get_placement()`, and the raw
local-coordinate per-line boxes filled in by `get_inline_boxes`. -/
structure RenderItem where
  pos : position
  placement : position
  inline_boxes : List position
  deriving DecidableEq

/-- A render-tree element as the bridge reads it: its ordered children, a
text-node flag, and the optional render item the layout produced for it. -/
inductive Element : Type where
  | mk (children : List Element) (isTextNode : Bool) (render_item : Option RenderItem)

def Element.children : Element → List Element
  | .mk cs _ _ => cs

def Element.isTextNode : Element → Bool
  | .mk _ t _ => t

def Element.render_item : Element → Option RenderItem
  | .mk _ _ ri => ri

def lh_element_children_count : Option Element → Int
  | none => 0
  | some e => (e.children.length : Int)

def lh_element_child_at (el : Option Element) (index : Int) : Option Element :=
  match el with
  | none => none
  | some e =>
    if index < 0 ∨ (e.children.length : Int) ≤ index then none
    else e.children[index.toNat]?

def lh_element_is_text : Option Element → Int
  | none => 0
  | some e => if e.isTextNode then 1 else 0

/-- Embedding of `compute_ri_offset` (litehtml_c.cpp lines 1222-1229): the
parent-chain offset `placement.{x,y} - m_pos.{x,y}` of a render node. -/
def compute_ri_offset (ri : RenderItem) : ℚ × ℚ :=
  (ri.placement.x - ri.pos.x, ri.placement.y - ri.pos.y)

def lh_element_get_inline_boxes_count (el : Option Element) : Int :=
  match el with
  | none => 0
  | some e =>
    match e.render_item with
    | none => 0
    | some ri => (ri.inline_boxes.length : Int)

/-- Embedding of `lh_element_get_inline_box_at` (litehtml_c.cpp lines
1242-1261). The C out parameter `lh_position_t* pos` is modelled by taking
the value `*pos` holds before the call and returning the value it holds
after; every early `return` leaves it unchanged. -/
def lh_element_get_inline_box_at (el : Option Element) (index : Int)
    (pos : lh_position_t) : lh_position_t :=
  match el with
  | none => pos
  | some e =>
    match e.render_item with
    | none => pos
    | some ri =>
      if index < 0 ∨ (ri.inline_boxes.length : Int) ≤ index then pos
      else
        match ri.inline_boxes[index.toNat]? with
        | none => pos
        | some b =>
          let off := compute_ri_offset ri
          position.to_c { b with x := b.x + off.1, y := b.y + off.2 }

/- ------------------------------------------------------------------------
   Hit testing (litehtml_c.cpp lines 1199-1211)
   ------------------------------------------------------------------------ -/

/-- Point containment test of a box, following the spec's description of a
box containing a point. -/
def position.containsPoint (p : position) (px py : ℚ) : Bool :=
  decide (p.x ≤ px) && decide (px < p.x + p.width) &&
  decide (p.y ≤ py) && decide (py < p.y + p.height)

mutual
/-- The render tree the engine's hit testing walks: each node carries the
identifier of its element, its box, and its child render nodes. -/
inductive RenderTree : Type where
  | node (elem : Nat) (box : position) (children : RenderForest) : RenderTree

inductive RenderForest : Type where
  | nil : RenderForest
  | cons (t : RenderTree) (ts : RenderForest) : RenderForest
end

mutual
/-- Modelled from the spec: the engine's `render_item::get_element_by_point`
is not part of this repository (the engine is an external collaborator), so
it is modelled from the spec's words — it returns the deepest element whose
box contains the point, among the candidates accepted by the supplied filter
predicate (children are searched before the node itself). -/
def getElementByPoint (flt : Nat → Bool) (px py : ℚ) : RenderTree → Option Nat
  | .node elem box children =>
    match getElementByPointForest flt px py children with
    | some found => some found
    | none => if box.containsPoint px py && flt elem then some elem else none

def getElementByPointForest (flt : Nat → Bool) (px py : ℚ) :
    RenderForest → Option Nat
  | .nil => none
  | .cons t ts =>
    match getElementByPoint flt px py t with
    | some found => some found
    | none => getElementByPointForest flt px py ts
end

mutual
/-- The spec's pure deepest-at-point query, stated with no filter at all:
the deepest element whose box contains the given point. -/
def deepestAtPoint (px py : ℚ) : RenderTree → Option Nat
  | .node elem box children =>
    match deepestAtPointForest px py children with
    | some found => some found
    | none => if box.containsPoint px py then some elem else none

def deepestAtPointForest (px py : ℚ) : RenderForest → Option Nat
  | .nil => none
  | .cons t ts =>
    match deepestAtPoint px py t with
    | some found => some found
    | none => deepestAtPointForest px py ts
end

/-- A document as the hit-testing entry point reads it: an optional root
render item (`doc->root_render()` may be null before layout). -/
structure HitDocument where
  root_render : Option RenderTree

/-- Embedding of `lh_document_get_element_by_point` (litehtml_c.cpp lines
1199-1211): null checks on the handle and the root render item, then the
engine query called with the constant-true filter lambda of the source. The
client coordinates are forwarded to the engine in the source; the modelled
engine query tests boxes against the document coordinates. -/
def lh_document_get_element_by_point (doc : Option HitDocument)
    (x y _client_x _client_y : ℚ) : Option Nat :=
  match doc with
  | none => none
  | some d =>
    match d.root_render with
    | none => none
    | some rt => getElementByPoint (fun _ => true) x y rt

/- ------------------------------------------------------------------------
   Container callback vtable (litehtml_c.h lines 184-300)
   ------------------------------------------------------------------------ -/

/-- The caller's flat function table. Every entry is optional (a null C
function pointer is `none`). The type parameter `σ` stands for the state a
caller can reach through its opaque `user_data` pointer: each callback
receives the current state (its `user_data` argument) and the
side-effecting ones return the updated state. String-returning callbacks
(`transform_text`, `import_css`, `get_language`) are modelled by the list of
invocations they make on the result-setter they are handed, in order, each
carrying a possibly-null string argument. -/
structure ContainerVTable (σ : Type) where
  create_font : Option (σ → font_description → Nat × lh_font_metrics_t) := none
  delete_font : Option (σ → Nat → σ) := none
  text_width : Option (σ → String → Nat → ℚ) := none
  draw_text : Option (σ → Nat → String → Nat → lh_web_color_t → lh_position_t → σ) := none
  pt_to_px : Option (σ → ℚ → ℚ) := none
  get_default_font_size : Option (σ → ℚ) := none
  get_default_font_name : Option (σ → String) := none
  draw_list_marker : Option (σ → Nat → list_marker → σ) := none
  load_image : Option (σ → String → String → Int → σ) := none
  get_image_size : Option (σ → String → String → lh_size_t → lh_size_t) := none
  draw_image : Option (σ → Nat → background_layer → String → String → σ) := none
  draw_solid_fill : Option (σ → Nat → background_layer → lh_web_color_t → σ) := none
  draw_linear_gradient : Option (σ → Nat → background_layer → linear_gradient → σ) := none
  draw_radial_gradient : Option (σ → Nat → background_layer → radial_gradient → σ) := none
  draw_conic_gradient : Option (σ → Nat → background_layer → conic_gradient → σ) := none
  draw_borders : Option (σ → Nat → lh_borders_t → lh_position_t → Int → σ) := none
  set_caption : Option (σ → String → σ) := none
  set_base_url : Option (σ → String → σ) := none
  link : Option (σ → σ) := none
  on_anchor_click : Option (σ → String → σ) := none
  on_mouse_event : Option (σ → Int → σ) := none
  set_cursor : Option (σ → String → σ) := none
  transform_text : Option (σ → String → Int → List (Option String)) := none
  import_css : Option (σ → String → String → List (Option String)) := none
  set_clip : Option (σ → lh_position_t → lh_border_radiuses_t → σ) := none
  del_clip : Option (σ → σ) := none
  get_viewport : Option (σ → lh_position_t → lh_position_t) := none
  get_media_features : Option (σ → lh_media_features_t → lh_media_features_t) := none
  get_language : Option (σ → List (Option String × Option String)) := none

/-- Replay of the String Return Bridge setter: each invocation overwrites the
result slot with `r ? r : ""` (litehtml_c.cpp lines 421-424 and 444-447). -/
def runSetter (init : String) (calls : List (Option String)) : String :=
  calls.foldl (fun _ c => c.getD "") init

namespace CDocumentContainer

variable {σ : Type}

/-- Embedding of `CDocumentContainer::text_width` (lines 228-232). -/
def text_width (vt : ContainerVTable σ) (ud : σ) (text : String) (hFont : Nat) : ℚ :=
  match vt.text_width with
  | none => 0
  | some f => f ud text hFont

/-- Embedding of `CDocumentContainer::draw_text` (lines 235-243). -/
def draw_text (vt : ContainerVTable σ) (ud : σ) (hdc : Nat) (text : String)
    (hFont : Nat) (color : web_color) (pos : position) : σ :=
  match vt.draw_text with
  | none => ud
  | some f => f ud hdc text hFont color.to_c pos.to_c

/-- Embedding of `CDocumentContainer::pt_to_px` (lines 246-250). -/
def pt_to_px (vt : ContainerVTable σ) (ud : σ) (pt : ℚ) : ℚ :=
  match vt.pt_to_px with
  | none => pt
  | some f => f ud pt

/-- Embedding of `CDocumentContainer::get_default_font_size` (lines 253-257). -/
def get_default_font_size (vt : ContainerVTable σ) (ud : σ) : ℚ :=
  match vt.get_default_font_size with
  | none => 16
  | some f => f ud

/-- Embedding of `CDocumentContainer::get_default_font_name` (lines 260-264). -/
def get_default_font_name (vt : ContainerVTable σ) (ud : σ) : String :=
  match vt.get_default_font_name with
  | none => "serif"
  | some f => f ud

/-- Embedding of `CDocumentContainer::draw_list_marker` (lines 267-273). -/
def draw_list_marker (vt : ContainerVTable σ) (ud : σ) (hdc : Nat)
    (marker : list_marker) : σ :=
  match vt.draw_list_marker with
  | none => ud
  | some f => f ud hdc marker

/-- Embedding of `CDocumentContainer::load_image` (lines 276-281). -/
def load_image (vt : ContainerVTable σ) (ud : σ) (src baseurl : String)
    (redraw_on_ready : Bool) : σ :=
  match vt.load_image with
  | none => ud
  | some f => f ud src baseurl (if redraw_on_ready then 1 else 0)

/-- Embedding of `CDocumentContainer::get_image_size` (lines 284-292): the
out parameter `sz` is converted to C form, handed to the entry, and the
entry's result copied back; a null entry leaves it unchanged. -/
def get_image_size (vt : ContainerVTable σ) (ud : σ) (src baseurl : String)
    (sz : size) : size :=
  match vt.get_image_size with
  | none => sz
  | some f => (f ud src baseurl sz.to_c).to_cpp

/-- Embedding of `CDocumentContainer::draw_image` (lines 295-303). -/
def draw_image (vt : ContainerVTable σ) (ud : σ) (hdc : Nat)
    (layer : background_layer) (url base_url : String) : σ :=
  match vt.draw_image with
  | none => ud
  | some f => f ud hdc layer url base_url

/-- Embedding of `CDocumentContainer::draw_solid_fill` (lines 306-313). -/
def draw_solid_fill (vt : ContainerVTable σ) (ud : σ) (hdc : Nat)
    (layer : background_layer) (color : web_color) : σ :=
  match vt.draw_solid_fill with
  | none => ud
  | some f => f ud hdc layer color.to_c

/-- Embedding of `CDocumentContainer::draw_linear_gradient` (lines 316-325). -/
def draw_linear_gradient (vt : ContainerVTable σ) (ud : σ) (hdc : Nat)
    (layer : background_layer) (gradient : linear_gradient) : σ :=
  match vt.draw_linear_gradient with
  | none => ud
  | some f => f ud hdc layer gradient

/-- Embedding of `CDocumentContainer::draw_radial_gradient` (lines 328-337). -/
def draw_radial_gradient (vt : ContainerVTable σ) (ud : σ) (hdc : Nat)
    (layer : background_layer) (gradient : radial_gradient) : σ :=
  match vt.draw_radial_gradient with
  | none => ud
  | some f => f ud hdc layer gradient

/-- Embedding of `CDocumentContainer::draw_conic_gradient` (lines 340-349). -/
def draw_conic_gradient (vt : ContainerVTable σ) (ud : σ) (hdc : Nat)
    (layer : background_layer) (gradient : conic_gradient) : σ :=
  match vt.draw_conic_gradient with
  | none => ud
  | some f => f ud hdc layer gradient

/-- Embedding of `CDocumentContainer::draw_borders` (lines 352-361). -/
def draw_borders (vt : ContainerVTable σ) (ud : σ) (hdc : Nat)
    (bs : borders) (draw_pos : position) (root : Bool) : σ :=
  match vt.draw_borders with
  | none => ud
  | some f => f ud hdc bs.to_c draw_pos.to_c (if root then 1 else 0)

/-- Embedding of `CDocumentContainer::set_caption` (lines 364-368). -/
def set_caption (vt : ContainerVTable σ) (ud : σ) (caption : String) : σ :=
  match vt.set_caption with
  | none => ud
  | some f => f ud caption

/-- Embedding of `CDocumentContainer::set_base_url` (lines 371-375). -/
def set_base_url (vt : ContainerVTable σ) (ud : σ) (base_url : String) : σ :=
  match vt.set_base_url with
  | none => ud
  | some f => f ud base_url

/-- Embedding of `CDocumentContainer::link` (lines 378-383). -/
def link (vt : ContainerVTable σ) (ud : σ) : σ :=
  match vt.link with
  | none => ud
  | some f => f ud

/-- Embedding of `CDocumentContainer::on_anchor_click` (lines 386-391). -/
def on_anchor_click (vt : ContainerVTable σ) (ud : σ) (url : String) : σ :=
  match vt.on_anchor_click with
  | none => ud
  | some f => f ud url

/-- Embedding of `CDocumentContainer::on_mouse_event` (lines 394-399); the
engine enum is passed through `static_cast<int>`. -/
def on_mouse_event (vt : ContainerVTable σ) (ud : σ) (event : Int) : σ :=
  match vt.on_mouse_event with
  | none => ud
  | some f => f ud event

/-- Embedding of `CDocumentContainer::set_cursor` (lines 402-406). -/
def set_cursor (vt : ContainerVTable σ) (ud : σ) (cursor : String) : σ :=
  match vt.set_cursor with
  | none => ud
  | some f => f ud cursor

/-- Embedding of `CDocumentContainer::transform_text` (lines 408-428): the
result slot is initialised to a copy of the incoming text, the entry is
invoked with the setter, and the slot's final value replaces the text. A
null entry returns without touching the text. -/
def transform_text (vt : ContainerVTable σ) (ud : σ) (text : String) (tt : Int) :
    String :=
  match vt.transform_text with
  | none => text
  | some cb => runSetter text (cb ud text tt)

/-- Embedding of `CDocumentContainer::import_css` (lines 430-451): the
result slot is default-initialised to the empty string, the entry is invoked
with the setter, and the slot's final value replaces the text. A null entry
returns without touching the text. -/
def import_css (vt : ContainerVTable σ) (ud : σ) (text url baseurl : String) :
    String :=
  match vt.import_css with
  | none => text
  | some cb => runSetter "" (cb ud url baseurl)

/-- Embedding of `CDocumentContainer::set_clip` (lines 453-459). -/
def set_clip (vt : ContainerVTable σ) (ud : σ) (pos : position)
    (bdr_radius : border_radiuses) : σ :=
  match vt.set_clip with
  | none => ud
  | some f => f ud pos.to_c bdr_radius.to_c

/-- Embedding of `CDocumentContainer::del_clip` (lines 461-466). -/
def del_clip (vt : ContainerVTable σ) (ud : σ) : σ :=
  match vt.del_clip with
  | none => ud
  | some f => f ud

end CDocumentContainer

/- ------------------------------------------------------------------------
   Document lifecycle (litehtml_c.cpp lines 940-978)
   ------------------------------------------------------------------------ -/

/-- The adapter bundle: `CDocumentContainer(vtable, user_data)`. `V` is the
caller's vtable type and `U` its user-data type, opaque to the lifecycle
code. -/
structure CContainer (V U : Type) where
  vtable : V
  user_data : U
  deriving DecidableEq

/-- The internal wrapper `lh_document_internal`: the engine document
(`D`, held through a `shared_ptr`) paired with the container. -/
structure lh_document_internal (D V U : Type) where
  doc : D
  container : CContainer V U
  deriving DecidableEq

/-- Adapter allocation events observable during creation. -/
inductive CreateEvent : Type where
  | allocAdapter : CreateEvent
  | freeAdapter : CreateEvent
  deriving DecidableEq

/-- Modelled from the spec: `litehtml::master_css`, the engine's built-in
master stylesheet, is engine data not present in this repository; only its
existence matters here. -/
def litehtml_master_css : String := "html{display:block}"

/-- Embedding of `lh_document_create_from_string` (litehtml_c.cpp lines
940-967). The engine's `litehtml::document::createFromString` is an external
collaborator and is passed in as the function `createFromString`, which may
fail (`none`). Alongside the result, the adapter allocation/release events
the call performs are returned in order. -/
def lh_document_create_from_string {D V U : Type}
    (createFromString : String → CContainer V U → String → String → Option D)
    (html : Option String) (vtable : Option V) (user_data : U)
    (master_css : Option String) (user_styles : Option String) :
    Option (lh_document_internal D V U) × List CreateEvent :=
  match html, vtable with
  | none, _ => (none, [])
  | some _, none => (none, [])
  | some h, some vt =>
    let container : CContainer V U := ⟨vt, user_data⟩
    let master := master_css.getD litehtml_master_css
    let user := user_styles.getD ""
    match createFromString h container master user with
    | none => (none, [CreateEvent.allocAdapter, CreateEvent.freeAdapter])
    | some d => (some ⟨d, container⟩, [CreateEvent.allocAdapter])

/-- Teardown events observable during destruction. -/
inductive DestroyEvent : Type where
  | deleteFont (hFont : Nat) : DestroyEvent
  | releaseDocument : DestroyEvent
  | releaseAdapter : DestroyEvent
  deriving DecidableEq

/-- A document handle at destruction time, abstracted to what teardown
observes: the font handles whose release the engine document's destructor
will trigger through the container. -/
structure OwnedDocument where
  fonts : List Nat
  deriving DecidableEq

/-- Modelled from the spec: dropping the engine document's `shared_ptr`
runs the engine's document destructor, which invokes the container's
`delete_font` callback for each live font handle before the document is
gone. The engine's destructor body is not part of this repository. -/
def documentTeardown (d : OwnedDocument) : List DestroyEvent :=
  d.fonts.map DestroyEvent.deleteFont ++ [DestroyEvent.releaseDocument]

/-- Embedding of `lh_document_destroy` (litehtml_c.cpp lines 969-978) as the
ordered list of events it performs: a null handle does nothing; otherwise
`delete internal` drops the document `shared_ptr` (running the teardown),
and only then is the container deleted. -/
def lh_document_destroy : Option OwnedDocument → List DestroyEvent
  | none => []
  | some d => documentTeardown d ++ [DestroyEvent.releaseAdapter]

/- ------------------------------------------------------------------------
   Stylesheet application (litehtml_c.cpp lines 1023-1050)
   ------------------------------------------------------------------------ -/

/-- One stylesheet application recorded against the root's subtree. -/
structure StylesheetApplication where
  css : String
  baseurl : String
  media : Option String
  deriving DecidableEq

/-- A document as `lh_document_add_stylesheet` observes and mutates it:
whether `doc->root()` is non-null, the stylesheet applications performed so
far, and how many times computed styles were recomputed. -/
structure StyledDocument where
  hasRoot : Bool
  applied : List StylesheetApplication
  computeStylesCount : Nat
  deriving DecidableEq

/-- Embedding of `lh_document_add_stylesheet` (litehtml_c.cpp lines
1023-1050): a null handle, a null `css_text` or an empty `css_text`
(first byte zero) short-circuits; otherwise the stylesheet is parsed with
the optional media-query list and applied to the root's subtree, whose
styles are then recomputed. -/
def lh_document_add_stylesheet (doc : Option StyledDocument)
    (css_text : Option String) (baseurl : Option String)
    (media : Option String) : Option StyledDocument :=
  match doc with
  | none => none
  | some d =>
    match css_text with
    | none => some d
    | some css =>
      if css = "" then some d
      else
        let mq := match media with
          | some m => if m = "" then none else some m
          | none => none
        if d.hasRoot then
          some { d with
                 applied := d.applied ++ [⟨css, baseurl.getD "", mq⟩],
                 computeStylesCount := d.computeStylesCount + 1 }
        else some d

/- ------------------------------------------------------------------------
   Concrete instances used by closed evaluation theorems
   ------------------------------------------------------------------------ -/

def wcW : web_color := ⟨10, 20, 30, 40, false⟩

def posW : position := ⟨1, 2, 3, 4⟩

def brW : border_radiuses := ⟨1, 2, 3, 4, 5, 6, 7, 8⟩

def bW : border := ⟨2, 1, wcW⟩

def bsW : borders := ⟨bW, bW, bW, bW, brW⟩

def mkW : list_marker := ⟨"img", "base", 1, wcW, posW, 3, 9⟩

def blW : background_layer := ⟨posW, brW, posW, posW, 0, 0, false⟩

def cpW : color_point := ⟨1/2, wcW⟩

def lgW : linear_gradient := ⟨⟨0, 0⟩, ⟨1, 1⟩, [cpW], 0, 0⟩

def rgW : radial_gradient := ⟨⟨0, 0⟩, ⟨1, 1⟩, [cpW], 0, 0⟩

def cgW : conic_gradient := ⟨⟨0, 0⟩, 45, 2, [cpW], 0, 0⟩

def riW : RenderItem := ⟨⟨10, 20, 30, 40⟩, ⟨110, 220, 30, 40⟩, [⟨1, 2, 5, 6⟩]⟩

def elW : Element := .mk [] false (some riW)

def vtNone : ContainerVTable Int := {}

def ownedW : OwnedDocument := ⟨[7]⟩

/- ------------------------------------------------------------------------
   Claim C1
   ------------------------------------------------------------------------ -/

/-- Claim C1: for every non-null document handle, `lh_document_destroy`
releases the engine document strictly before it releases the adapter — the
adapter release is the very last event of the teardown trace and occurs
exactly once, the document release precedes it, and every teardown callback
(`delete_font`) triggered by document destruction occurs before the adapter
release, i.e. while the adapter is still alive; the order is never
reversed. -/
theorem C1_destroy_releases_document_before_adapter (d : OwnedDocument) :
    (lh_document_destroy (some d)).getLast? = some DestroyEvent.releaseAdapter ∧
    DestroyEvent.releaseAdapter ∉ (lh_document_destroy (some d)).dropLast ∧
    DestroyEvent.releaseDocument ∈ (lh_document_destroy (some d)).dropLast ∧
    ∀ hFont : Nat, DestroyEvent.deleteFont hFont ∈ lh_document_destroy (some d) →
      DestroyEvent.deleteFont hFont ∈ (lh_document_destroy (some d)).dropLast := by
  have h : lh_document_destroy (some d)
      = (d.fonts.map DestroyEvent.deleteFont ++ [DestroyEvent.releaseDocument])
        ++ [DestroyEvent.releaseAdapter] := rfl
  refine ⟨?_, ?_, ?_, ?_⟩
  · rw [h, List.getLast?_concat]
  · rw [h, List.dropLast_concat]
    simp [List.mem_append, List.mem_map]
  · rw [h, List.dropLast_concat]
    simp
  · intro hFont hmem
    rw [h, List.dropLast_concat]
    rw [h] at hmem
    rcases List.mem_append.mp hmem with h1 | h2
    · exact h1
    · simp at h2

/-- Witness for C1 at a concrete handle owning one font. -/
theorem C1_witness :
    DestroyEvent.deleteFont 7 ∈ (lh_document_destroy (some ownedW)).dropLast :=
  (C1_destroy_releases_document_before_adapter ownedW).2.2.2 7 (by decide)

/- ------------------------------------------------------------------------
   Claim C2
   ------------------------------------------------------------------------ -/

/-- Claim C2: when the engine's `createFromString` returns a null document,
`lh_document_create_from_string` returns null and the adapter it constructed
first is released before returning (the allocation events balance — no
leaked state); when the engine succeeds, it returns a non-null handle owning
both the document and the adapter, and the adapter is not released. -/
theorem C2_create_failure_releases_adapter {D V U : Type}
    (createFromString : String → CContainer V U → String → String → Option D)
    (html : String) (vt : V) (ud : U) (master user : Option String) :
    (createFromString html ⟨vt, ud⟩ (master.getD litehtml_master_css) (user.getD "") = none →
      lh_document_create_from_string createFromString (some html) (some vt) ud master user
        = (none, [CreateEvent.allocAdapter, CreateEvent.freeAdapter]) ∧
      ((lh_document_create_from_string createFromString (some html) (some vt) ud master user).2.count
          CreateEvent.allocAdapter
        = (lh_document_create_from_string createFromString (some html) (some vt) ud master user).2.count
          CreateEvent.freeAdapter)) ∧
    (∀ d, createFromString html ⟨vt, ud⟩ (master.getD litehtml_master_css) (user.getD "") = some d →
      lh_document_create_from_string createFromString (some html) (some vt) ud master user
        = (some ⟨d, ⟨vt, ud⟩⟩, [CreateEvent.allocAdapter])) := by
  constructor
  · intro hfail
    have heq : lh_document_create_from_string createFromString (some html) (some vt) ud master user
        = (none, [CreateEvent.allocAdapter, CreateEvent.freeAdapter]) := by
      simp [lh_document_create_from_string, hfail]
    refine ⟨heq, ?_⟩
    rw [heq]
    rfl
  · intro d hsucc
    simp [lh_document_create_from_string, hsucc]

/-- Witness for C2 at a concrete failing engine and a concrete succeeding
engine. -/
theorem C2_witness :
    lh_document_create_from_string (D := Nat) (fun _ _ _ _ => none)
        (some "<html></html>") (some 1) 2 none none
      = (none, [CreateEvent.allocAdapter, CreateEvent.freeAdapter]) ∧
    lh_document_create_from_string (D := Nat) (fun _ _ _ _ => some 5)
        (some "<html></html>") (some 1) 2 none none
      = (some ⟨5, ⟨1, 2⟩⟩, [CreateEvent.allocAdapter]) :=
  ⟨((C2_create_failure_releases_adapter (fun _ _ _ _ => none)
      "<html></html>" 1 2 none none).1 rfl).1,
   (C2_create_failure_releases_adapter (fun _ _ _ _ => some 5)
      "<html></html>" 1 2 none none).2 5 rfl⟩

/- ------------------------------------------------------------------------
   Claim C3
   ------------------------------------------------------------------------ -/

/-- Claim C3: for every element with a render item and every in-range
inline-box index, the box reported by `lh_element_get_inline_box_at` equals
the locally stored box with the single offset vector
`(placement - local position)` of the owning render node added to its x and
y, width and height copied verbatim. -/
theorem C3_inline_box_offset (e : Element) (ri : RenderItem)
    (hri : e.render_item = some ri) (idx : Nat)
    (hidx : idx < ri.inline_boxes.length) (pos0 : lh_position_t) :
    lh_element_get_inline_box_at (some e) (idx : Int) pos0 =
      { x := ri.inline_boxes[idx].x + (ri.placement.x - ri.pos.x),
        y := ri.inline_boxes[idx].y + (ri.placement.y - ri.pos.y),
        width := ri.inline_boxes[idx].width,
        height := ri.inline_boxes[idx].height } := by
  have hneg : ¬((idx : Int) < 0 ∨ (ri.inline_boxes.length : Int) ≤ (idx : Int)) := by
    omega
  simp only [lh_element_get_inline_box_at, hri, Int.toNat_natCast,
             List.getElem?_eq_getElem hidx, compute_ri_offset, position.to_c]
  rw [if_neg hneg]

/-- Witness for C3 at a concrete nested render item: local box (1,2) with
offset (110-10, 220-20) reports (101, 202) with size copied verbatim. -/
theorem C3_witness :
    lh_element_get_inline_box_at (some elW) ((0 : Nat) : Int) lh_position_t.zero
      = ⟨101, 202, 5, 6⟩ := by
  rw [C3_inline_box_offset elW riW rfl 0 (by decide) lh_position_t.zero]
  norm_num [riW]

/- ------------------------------------------------------------------------
   Claim C9
   ------------------------------------------------------------------------ -/

mutual
theorem getElementByPoint_true (px py : ℚ) :
    (t : RenderTree) →
      getElementByPoint (fun _ => true) px py t = deepestAtPoint px py t
  | .node elem box children => by
    rw [getElementByPoint, deepestAtPoint,
        getElementByPointForest_true px py children]
    cases deepestAtPointForest px py children <;> simp

theorem getElementByPointForest_true (px py : ℚ) :
    (ts : RenderForest) →
      getElementByPointForest (fun _ => true) px py ts = deepestAtPointForest px py ts
  | .nil => by rw [getElementByPointForest, deepestAtPointForest]
  | .cons t ts => by
    rw [getElementByPointForest, deepestAtPointForest,
        getElementByPoint_true px py t, getElementByPointForest_true px py ts]
end

/-- Claim C9: `lh_document_get_element_by_point` performs a pure
deepest-at-point query — the filter it passes to the engine accepts every
candidate unconditionally, so the result equals the unfiltered
deepest-element-at-point query, and a null document handle or null root
render item yields null. -/
theorem C9_hit_testing_pure_deepest (doc : Option HitDocument) (x y cx cy : ℚ) :
    lh_document_get_element_by_point doc x y cx cy =
      match doc with
      | none => none
      | some d =>
        match d.root_render with
        | none => none
        | some rt => deepestAtPoint x y rt := by
  cases doc with
  | none => rfl
  | some d =>
    cases h : d.root_render with
    | none => simp [lh_document_get_element_by_point, h]
    | some rt => simp [lh_document_get_element_by_point, h, getElementByPoint_true]

/- ------------------------------------------------------------------------
   Claim C10
   ------------------------------------------------------------------------ -/

/-- Claim C10: `lh_document_add_stylesheet` invoked with a null `css_text`
pointer or an empty `css_text` string performs no work at all — no
stylesheet is recorded and no styles are recomputed, the document state is
returned entirely unchanged, the empty-string case short-circuited exactly
like the null case. -/
theorem C10_add_stylesheet_empty_short_circuit (d : StyledDocument)
    (baseurl media : Option String) :
    lh_document_add_stylesheet (some d) none baseurl media = some d ∧
    lh_document_add_stylesheet (some d) (some "") baseurl media = some d := by
  constructor
  · rfl
  · simp [lh_document_add_stylesheet]

/- ------------------------------------------------------------------------
   Claim C5
   ------------------------------------------------------------------------ -/

/-- Claim C5: for every adapter capability whose function-table entry is
null, the adapter produces the documented default instead of failing:
`pt_to_px` returns its input unchanged, `get_default_font_size` returns 16,
`get_default_font_name` returns "serif", `text_width` returns zero, and
every drawing/notification method is a no-op — the caller-reachable state is
returned unchanged. -/
theorem C5_null_entry_defaults {σ : Type} (vt : ContainerVTable σ) (ud : σ)
    (pt : ℚ) (text s1 s2 : String) (hdc hFont : Nat) (c : web_color)
    (p dp cp : position) (marker : list_marker) (bl : background_layer)
    (lg : linear_gradient) (rg : radial_gradient) (cg : conic_gradient)
    (bs : borders) (rootFlag redraw : Bool) (ev : Int) (br : border_radiuses) :
    (vt.pt_to_px = none → CDocumentContainer.pt_to_px vt ud pt = pt) ∧
    (vt.get_default_font_size = none →
      CDocumentContainer.get_default_font_size vt ud = 16) ∧
    (vt.get_default_font_name = none →
      CDocumentContainer.get_default_font_name vt ud = "serif") ∧
    (vt.text_width = none → CDocumentContainer.text_width vt ud text hFont = 0) ∧
    (vt.draw_text = none →
      CDocumentContainer.draw_text vt ud hdc text hFont c p = ud) ∧
    (vt.draw_list_marker = none →
      CDocumentContainer.draw_list_marker vt ud hdc marker = ud) ∧
    (vt.load_image = none →
      CDocumentContainer.load_image vt ud s1 s2 redraw = ud) ∧
    (vt.draw_image = none →
      CDocumentContainer.draw_image vt ud hdc bl s1 s2 = ud) ∧
    (vt.draw_solid_fill = none →
      CDocumentContainer.draw_solid_fill vt ud hdc bl c = ud) ∧
    (vt.draw_linear_gradient = none →
      CDocumentContainer.draw_linear_gradient vt ud hdc bl lg = ud) ∧
    (vt.draw_radial_gradient = none →
      CDocumentContainer.draw_radial_gradient vt ud hdc bl rg = ud) ∧
    (vt.draw_conic_gradient = none →
      CDocumentContainer.draw_conic_gradient vt ud hdc bl cg = ud) ∧
    (vt.draw_borders = none →
      CDocumentContainer.draw_borders vt ud hdc bs dp rootFlag = ud) ∧
    (vt.set_caption = none → CDocumentContainer.set_caption vt ud s1 = ud) ∧
    (vt.set_base_url = none → CDocumentContainer.set_base_url vt ud s1 = ud) ∧
    (vt.link = none → CDocumentContainer.link vt ud = ud) ∧
    (vt.on_anchor_click = none →
      CDocumentContainer.on_anchor_click vt ud s1 = ud) ∧
    (vt.on_mouse_event = none → CDocumentContainer.on_mouse_event vt ud ev = ud) ∧
    (vt.set_cursor = none → CDocumentContainer.set_cursor vt ud s1 = ud) ∧
    (vt.set_clip = none → CDocumentContainer.set_clip vt ud cp br = ud) ∧
    (vt.del_clip = none → CDocumentContainer.del_clip vt ud = ud) := by
  refine ⟨fun h => ?_, fun h => ?_, fun h => ?_, fun h => ?_, fun h => ?_, fun h => ?_,
    fun h => ?_, fun h => ?_, fun h => ?_, fun h => ?_, fun h => ?_, fun h => ?_,
    fun h => ?_, fun h => ?_, fun h => ?_, fun h => ?_, fun h => ?_, fun h => ?_,
    fun h => ?_, fun h => ?_, fun h => ?_⟩ <;>
    simp only [CDocumentContainer.pt_to_px, CDocumentContainer.get_default_font_size,
      CDocumentContainer.get_default_font_name, CDocumentContainer.text_width,
      CDocumentContainer.draw_text, CDocumentContainer.draw_list_marker,
      CDocumentContainer.load_image, CDocumentContainer.draw_image,
      CDocumentContainer.draw_solid_fill, CDocumentContainer.draw_linear_gradient,
      CDocumentContainer.draw_radial_gradient, CDocumentContainer.draw_conic_gradient,
      CDocumentContainer.draw_borders, CDocumentContainer.set_caption,
      CDocumentContainer.set_base_url, CDocumentContainer.link,
      CDocumentContainer.on_anchor_click, CDocumentContainer.on_mouse_event,
      CDocumentContainer.set_cursor, CDocumentContainer.set_clip,
      CDocumentContainer.del_clip, h]

/-- Witness for C5: the all-null table at concrete inputs produces every
documented default. -/
theorem C5_witness :
    CDocumentContainer.pt_to_px vtNone 0 5 = 5 ∧
    CDocumentContainer.get_default_font_size vtNone 0 = 16 ∧
    CDocumentContainer.get_default_font_name vtNone 0 = "serif" ∧
    CDocumentContainer.text_width vtNone 0 "Hi" 9 = 0 ∧
    CDocumentContainer.draw_text vtNone 0 1 "Hi" 9 wcW posW = 0 ∧
    CDocumentContainer.draw_list_marker vtNone 0 1 mkW = 0 ∧
    CDocumentContainer.load_image vtNone 0 "a" "b" true = 0 ∧
    CDocumentContainer.draw_image vtNone 0 1 blW "a" "b" = 0 ∧
    CDocumentContainer.draw_solid_fill vtNone 0 1 blW wcW = 0 ∧
    CDocumentContainer.draw_linear_gradient vtNone 0 1 blW lgW = 0 ∧
    CDocumentContainer.draw_radial_gradient vtNone 0 1 blW rgW = 0 ∧
    CDocumentContainer.draw_conic_gradient vtNone 0 1 blW cgW = 0 ∧
    CDocumentContainer.draw_borders vtNone 0 1 bsW posW true = 0 ∧
    CDocumentContainer.set_caption vtNone 0 "a" = 0 ∧
    CDocumentContainer.set_base_url vtNone 0 "a" = 0 ∧
    CDocumentContainer.link vtNone 0 = 0 ∧
    CDocumentContainer.on_anchor_click vtNone 0 "a" = 0 ∧
    CDocumentContainer.on_mouse_event vtNone 0 3 = 0 ∧
    CDocumentContainer.set_cursor vtNone 0 "a" = 0 ∧
    CDocumentContainer.set_clip vtNone 0 posW brW = 0 ∧
    CDocumentContainer.del_clip vtNone 0 = 0 := by
  obtain ⟨h1, h2, h3, h4, h5, h6, h7, h8, h9, h10, h11, h12, h13, h14, h15, h16,
    h17, h18, h19, h20, h21⟩ :=
    C5_null_entry_defaults vtNone (0 : Int) 5 "Hi" "a" "b" 1 9 wcW posW posW posW
      mkW blW lgW rgW cgW bsW true true 3 brW
  exact ⟨h1 rfl, h2 rfl, h3 rfl, h4 rfl, h5 rfl, h6 rfl, h7 rfl, h8 rfl, h9 rfl,
    h10 rfl, h11 rfl, h12 rfl, h13 rfl, h14 rfl, h15 rfl, h16 rfl, h17 rfl,
    h18 rfl, h19 rfl, h20 rfl, h21 rfl⟩

/- ------------------------------------------------------------------------
   Claim C6
   ------------------------------------------------------------------------ -/

/-- Claim C6 counterexample: the claim says every opaque-descriptor accessor
yields a zero-valued default on a null descriptor, but
`lh_font_description_decoration_thickness_is_predefined` returns 1, not 0,
on a null descriptor (litehtml_c.cpp line 561). -/
theorem C6_counterexample :
    lh_font_description_decoration_thickness_is_predefined none = 1 ∧
    lh_font_description_decoration_thickness_is_predefined none ≠ 0 := by
  decide

/-- Claim C6 amended: every opaque-descriptor accessor yields its documented
default on a null descriptor — the zero-valued default for its return type
(empty string, zero-valued struct, zero) — with the single exception of
`lh_font_description_decoration_thickness_is_predefined`, which returns 1
(a null descriptor is treated as having a predefined thickness). -/
theorem C6_null_descriptor_defaults :
    lh_font_description_family none = "" ∧
    lh_font_description_size none = 0 ∧
    lh_font_description_style none = 0 ∧
    lh_font_description_weight none = 0 ∧
    lh_font_description_decoration_line none = 0 ∧
    lh_font_description_decoration_thickness_is_predefined none = 1 ∧
    lh_font_description_decoration_thickness_predef none = 0 ∧
    lh_font_description_decoration_thickness_value none = 0 ∧
    lh_font_description_decoration_style none = 0 ∧
    lh_font_description_decoration_color none = lh_web_color_t.zero ∧
    lh_font_description_emphasis_style none = "" ∧
    lh_font_description_emphasis_color none = lh_web_color_t.zero ∧
    lh_font_description_emphasis_position none = 0 ∧
    lh_list_marker_image none = "" ∧
    lh_list_marker_baseurl none = "" ∧
    lh_list_marker_type none = 0 ∧
    lh_list_marker_color none = lh_web_color_t.zero ∧
    lh_list_marker_pos none = lh_position_t.zero ∧
    lh_list_marker_index none = 0 ∧
    lh_list_marker_font none = 0 ∧
    lh_background_layer_border_box none = lh_position_t.zero ∧
    lh_background_layer_border_radius none = lh_border_radiuses_t.zero ∧
    lh_background_layer_clip_box none = lh_position_t.zero ∧
    lh_background_layer_origin_box none = lh_position_t.zero ∧
    lh_background_layer_attachment none = 0 ∧
    lh_background_layer_repeat none = 0 ∧
    lh_background_layer_is_root none = 0 ∧
    lh_linear_gradient_start none = lh_point_t.zero ∧
    lh_linear_gradient_end none = lh_point_t.zero ∧
    lh_linear_gradient_color_points_count none = 0 ∧
    lh_linear_gradient_color_point_offset none 0 = 0 ∧
    lh_linear_gradient_color_point_color none 0 = lh_web_color_t.zero ∧
    lh_linear_gradient_color_space none = 0 ∧
    lh_linear_gradient_hue_interpolation none = 0 ∧
    lh_radial_gradient_position none = lh_point_t.zero ∧
    lh_radial_gradient_radius none = lh_point_t.zero ∧
    lh_radial_gradient_color_points_count none = 0 ∧
    lh_radial_gradient_color_point_offset none 0 = 0 ∧
    lh_radial_gradient_color_point_color none 0 = lh_web_color_t.zero ∧
    lh_radial_gradient_color_space none = 0 ∧
    lh_radial_gradient_hue_interpolation none = 0 ∧
    lh_conic_gradient_position none = lh_point_t.zero ∧
    lh_conic_gradient_angle none = 0 ∧
    lh_conic_gradient_radius none = 0 ∧
    lh_conic_gradient_color_points_count none = 0 ∧
    lh_conic_gradient_color_point_offset none 0 = 0 ∧
    lh_conic_gradient_color_point_color none 0 = lh_web_color_t.zero ∧
    lh_conic_gradient_color_space none = 0 ∧
    lh_conic_gradient_hue_interpolation none = 0 :=
  ⟨rfl, rfl, rfl, rfl, rfl, rfl, rfl, rfl, rfl, rfl, rfl, rfl, rfl, rfl, rfl, rfl,
   rfl, rfl, rfl, rfl, rfl, rfl, rfl, rfl, rfl, rfl, rfl, rfl, rfl, rfl, rfl, rfl,
   rfl, rfl, rfl, rfl, rfl, rfl, rfl, rfl, rfl, rfl, rfl, rfl, rfl, rfl, rfl, rfl,
   rfl⟩

/- ------------------------------------------------------------------------
   Claim C7
   ------------------------------------------------------------------------ -/

/-- Claim C7 counterexample: with an out-of-range index,
`lh_element_get_inline_box_at` does not return or write a zero-valued
default — it returns without writing, leaving the caller's out parameter
with its previous (arbitrary) contents. -/
theorem C7_counterexample :
    lh_element_get_inline_box_at (some elW) 5 ⟨1, 2, 3, 4⟩ = ⟨1, 2, 3, 4⟩ ∧
    lh_element_get_inline_box_at (some elW) 5 ⟨1, 2, 3, 4⟩ ≠ lh_position_t.zero := by
  decide

/-- Claim C7 amended: for every index outside the valid range `[0, count)`,
the value-returning index accessors produce a zero-valued default (gradient
colour-point offset and colour return zero and the zero colour struct,
child-at-index returns null), while `lh_element_get_inline_box_at` performs
no write at all — the caller's out parameter is left unchanged rather than
being set to a zero-valued default. -/
theorem C7_out_of_range_defaults (idx : Int) (lg : linear_gradient)
    (rg : radial_gradient) (cg : conic_gradient) (e : Element)
    (pos0 : lh_position_t) :
    (idx < 0 ∨ (lg.color_points.length : Int) ≤ idx →
      lh_linear_gradient_color_point_offset (some lg) idx = 0 ∧
      lh_linear_gradient_color_point_color (some lg) idx = lh_web_color_t.zero) ∧
    (idx < 0 ∨ (rg.color_points.length : Int) ≤ idx →
      lh_radial_gradient_color_point_offset (some rg) idx = 0 ∧
      lh_radial_gradient_color_point_color (some rg) idx = lh_web_color_t.zero) ∧
    (idx < 0 ∨ (cg.color_points.length : Int) ≤ idx →
      lh_conic_gradient_color_point_offset (some cg) idx = 0 ∧
      lh_conic_gradient_color_point_color (some cg) idx = lh_web_color_t.zero) ∧
    (idx < 0 ∨ (e.children.length : Int) ≤ idx →
      lh_element_child_at (some e) idx = none) ∧
    (∀ ri, e.render_item = some ri →
      (idx < 0 ∨ (ri.inline_boxes.length : Int) ≤ idx) →
      lh_element_get_inline_box_at (some e) idx pos0 = pos0) := by
  refine ⟨fun h => ⟨?_, ?_⟩, fun h => ⟨?_, ?_⟩, fun h => ⟨?_, ?_⟩, fun h => ?_,
    fun ri hri h => ?_⟩
  · simp only [lh_linear_gradient_color_point_offset]
    rw [if_pos h]
  · simp only [lh_linear_gradient_color_point_color]
    rw [if_pos h]
  · simp only [lh_radial_gradient_color_point_offset]
    rw [if_pos h]
  · simp only [lh_radial_gradient_color_point_color]
    rw [if_pos h]
  · simp only [lh_conic_gradient_color_point_offset]
    rw [if_pos h]
  · simp only [lh_conic_gradient_color_point_color]
    rw [if_pos h]
  · simp only [lh_element_child_at]
    rw [if_pos h]
  · simp only [lh_element_get_inline_box_at, hri]
    rw [if_pos h]

/-- Witness for C7 at the concrete out-of-range index 5. -/
theorem C7_witness :
    lh_linear_gradient_color_point_offset (some lgW) 5 = 0 ∧
    lh_element_child_at (some elW) 5 = none ∧
    lh_element_get_inline_box_at (some elW) 5 lh_position_t.zero
      = lh_position_t.zero := by
  obtain ⟨h1, h2, h3, h4, h5⟩ :=
    C7_out_of_range_defaults 5 lgW rgW cgW elW lh_position_t.zero
  exact ⟨(h1 (by decide)).1, h4 (by decide), h5 riW rfl (by decide)⟩

/- ------------------------------------------------------------------------
   Claim C8
   ------------------------------------------------------------------------ -/

def vtNoSet : ContainerVTable Int :=
  { transform_text := some (fun _ _ _ => []) }

def vtSetNull : ContainerVTable Int :=
  { transform_text := some (fun _ _ _ => [none]),
    import_css := some (fun _ _ _ => [none]) }

/-- Claim C8 counterexample: the claim says a callback that never invokes
the result setter makes the engine receive the empty string, but for
`transform_text` the result slot is initialised to a copy of the input text
(litehtml_c.cpp line 414), so the engine receives the original text
unchanged. -/
theorem C8_counterexample :
    CDocumentContainer.transform_text vtNoSet 0 "Hi" 0 = "Hi" ∧ "Hi" ≠ "" :=
  ⟨rfl, by decide⟩

/-- Claim C8 amended: through the String Return Bridge, a callback that
passes null to the result setter yields the empty string for both
`transform_text` and `import_css`; a callback that never invokes the setter
yields the empty string for `import_css`, but for `transform_text` the
engine receives the original input text unchanged. -/
theorem C8_string_return_bridge {σ : Type} (vt : ContainerVTable σ) (ud : σ)
    (text url baseurl : String) (tt : Int)
    (cbT : σ → String → Int → List (Option String))
    (cbI : σ → String → String → List (Option String)) :
    (vt.transform_text = some cbT → cbT ud text tt = [none] →
      CDocumentContainer.transform_text vt ud text tt = "") ∧
    (vt.transform_text = some cbT → cbT ud text tt = [] →
      CDocumentContainer.transform_text vt ud text tt = text) ∧
    (vt.import_css = some cbI → cbI ud url baseurl = [none] →
      CDocumentContainer.import_css vt ud text url baseurl = "") ∧
    (vt.import_css = some cbI → cbI ud url baseurl = [] →
      CDocumentContainer.import_css vt ud text url baseurl = "") := by
  refine ⟨fun h1 h2 => ?_, fun h1 h2 => ?_, fun h1 h2 => ?_, fun h1 h2 => ?_⟩ <;>
    simp [CDocumentContainer.transform_text, CDocumentContainer.import_css,
      runSetter, h1, h2]

/-- Witness for C8 at concrete callbacks: a null-setting callback, a
never-setting callback, and a null-setting CSS import. -/
theorem C8_witness :
    CDocumentContainer.transform_text vtSetNull 0 "Hi" 0 = "" ∧
    CDocumentContainer.transform_text vtNoSet 0 "Hi" 0 = "Hi" ∧
    CDocumentContainer.import_css vtSetNull 0 "Hi" "u" "b" = "" := by
  obtain ⟨h1, h2, h3, h4⟩ := C8_string_return_bridge vtSetNull (0 : Int) "Hi" "u" "b" 0
    (fun _ _ _ => [none]) (fun _ _ _ => [none])
  obtain ⟨g1, g2, g3, g4⟩ := C8_string_return_bridge vtNoSet (0 : Int) "Hi" "u" "b" 0
    (fun _ _ _ => []) (fun _ _ _ => [])
  exact ⟨h1 rfl rfl, g2 rfl rfl, h3 rfl rfl⟩

end LitehtmlC
